import Mathlib

/-!
Verification of the be-image-builder backend (authentication + audit trail).

The definitions below are a shallow embedding of the JavaScript source:

* `src/controllers/authController.js` — `AuthController` (signup, signin,
  googleAuth, forgotPassword, ...) and `AuditController` (getAuditLogs,
  getEntityAuditLogs, getUserActivity, exportAuditLogs).
* `src/services/auditLogService.js` — `AuditLogService` facade.
* `src/middleware/auditLogger.js` — the automatic audit interceptor
  (`logRequest`, `extractEntityFromPath`, `extractEntityIdFromPath`,
  `sanitizeData`, `getActionFromMethod`, `shouldLogGetRequest`).
* `src/models/AuditLog.js` — the store statics `createLog`, `getEntityLogs`.
* `src/utils/jwtService.js` — the JWT wrapper.
* `src/middleware/validation.js` — the Joi query validators.

JavaScript objects appearing in audit snapshots are modelled as `JSVal`
(association-list objects with JS truthiness); a thrown/caught exception
boundary is modelled with `JSResult`.  The `User` mongoose model is not part
of the sources; its lockout members (`isLocked`, `incLoginAttempts`) are
modelled from the spec where noted.
-/

/-- JavaScript values as they occur in request bodies, response payloads and
audit change snapshots: strings, numbers, booleans, null, and objects as
association lists of fields. -/
inductive JSVal : Type
  | str (s : String)
  | num (n : Int)
  | bool (b : Bool)
  | null
  | obj (fields : List (String × JSVal))

/-- JS truthiness: empty string, 0, false and null are falsy; any object is
truthy. -/
def truthy : JSVal → Bool
  | .str s => decide (s ≠ "")
  | .num n => decide (n ≠ 0)
  | .bool b => b
  | .null => false
  | .obj _ => true

/-- JS `toUpperCase()` on the ASCII action/method names the code applies it
to, as a structurally computable map. -/
def jsToUpper (s : String) : String := String.mk (s.data.map Char.toUpper)

/-- First value bound to a key in an association-list object (JS property
lookup on our object model). -/
def jsGet (fields : List (String × JSVal)) (key : String) : Option JSVal :=
  (fields.find? (fun p => p.1 = key)).map (·.2)

/-- An HTTP response as produced by `res.status(...).json(...)`: the status
code, the `success` flag and the `message` string of the body. -/
structure HttpResponse : Type where
  status : Nat
  success : Bool
  message : String
deriving DecidableEq, Repr

/-- Outcome of a controller action: a JSON response sent with
`res.status(...).json(...)`, or an error forwarded with
`next(createError(status, msg))`. -/
inductive Outcome : Type
  | ok (r : HttpResponse)
  | err (status : Nat) (msg : String)
deriving DecidableEq, Repr

/-- What `User.findOne({email})` followed by the `isActive` check can observe
in `AuthController.forgotPassword`: no user, an inactive user, or an active
user. -/
inductive FPLookup : Type
  | noUser
  | inactiveUser
  | activeUser
deriving DecidableEq, Repr

/-- `AuthController.forgotPassword` (src/controllers/authController.js,
lines 278-340), as a function of the user-lookup outcome, whether
`emailService.isConfigured()` holds, and whether
`sendPasswordResetEmail` succeeds. -/
def forgotPassword (lookup : FPLookup) (emailConfigured : Bool)
    (sendOk : Bool) : Outcome :=
  match lookup with
  | .noUser =>
      .ok ⟨200, true,
        "If a user with that email exists, a password reset link has been sent."⟩
  | .inactiveUser =>
      .ok ⟨200, true,
        "If a user with that email exists, a password reset link has been sent."⟩
  | .activeUser =>
      if emailConfigured then
        if sendOk then
          .ok ⟨200, true, "Password reset link has been sent to your email."⟩
        else
          .err 500 "Failed to send password reset email. Please try again."
      else
        .err 500 "Email service is not configured"

/-- A persisted audit log entry (src/models/AuditLog.js): actor, action,
entity, entity id, before/after change snapshot. Metadata fields not needed
by the claims are omitted. -/
structure AuditEntry : Type where
  userId : String
  action : String
  entity : String
  entityId : String
  changesBefore : JSVal
  changesAfter : JSVal
  description : String

/-- A stored audit log document as queried by the audit endpoints
(src/models/AuditLog.js): the fields the find queries filter on. -/
structure StoredEntry : Type where
  userId : String
  action : String
  entity : String
  entityId : String
  timestamp : Int
deriving DecidableEq, Repr

/-- The mongo query object built by `AuditController.exportAuditLogs`
(src/controllers/authController.js, lines 820-831): optional equality
filters plus an optional timestamp range. -/
structure ExportQuery : Type where
  action : Option String
  entity : Option String
  userId : Option String
  startDate : Option Int
  endDate : Option Int
deriving Repr

/-- Whether a stored entry matches the export query (mongo `find` filter
semantics for the query object built by `exportAuditLogs`; the controller
uppercases the action before filtering). -/
def exportMatches (q : ExportQuery) (e : StoredEntry) : Bool :=
  (match q.action with | some a => decide (e.action = jsToUpper a) | none => true)
  && (match q.entity with | some en => decide (e.entity = en) | none => true)
  && (match q.userId with | some u => decide (e.userId = u) | none => true)
  && (match q.startDate with | some s => decide (s ≤ e.timestamp) | none => true)
  && (match q.endDate with | some d => decide (e.timestamp ≤ d) | none => true)

/-- Newest-first ordering used by `.sort(\x7b timestamp: -1 \x7d)`. -/
def tsDesc (a b : StoredEntry) : Bool := decide (b.timestamp ≤ a.timestamp)

/-- `AuditController.exportAuditLogs` record selection
(src/controllers/authController.js, lines 833-838):
`AuditLog.find(query).sort(timestamp desc).limit(10000)`. -/
def exportAuditLogs (store : List StoredEntry) (q : ExportQuery) :
    List StoredEntry :=
  (((store.filter (exportMatches q)).mergeSort tsDesc).take 10000)

/-- A JavaScript call result: a returned value, or a thrown exception that a
surrounding try/catch may absorb. -/
inductive JSResult (α : Type) : Type
  | ok (a : α)
  | exn (msg : String)
deriving DecidableEq, Repr

/-- `auditLogSchema.statics.createLog` (src/models/AuditLog.js): wraps
`auditLog.save()` in try/catch and returns the saved document, or null when
the save throws (the error is only logged locally). The save outcome is
passed in as `save`. -/
def auditLogModelCreateLog (save : JSResult AuditEntry) :
    JSResult (Option AuditEntry) :=
  match save with
  | .ok e => .ok (some e)
  | .exn _ => .ok none

/-- `AuditLogService.createLog` (src/services/auditLogService.js, lines
12-35): awaits `AuditLog.createLog` inside try/catch, returning null when it
throws. Composed here with the model static so `save` is the underlying
`auditLog.save()` outcome. -/
def serviceCreateLog (save : JSResult AuditEntry) :
    JSResult (Option AuditEntry) :=
  match auditLogModelCreateLog save with
  | .ok v => .ok v
  | .exn _ => .ok none

/-- The entry that `AuditLog.createLog` constructs and saves from the
parameters handed to it: the before/after snapshot is stored exactly as
given (src/models/AuditLog.js, lines 1463-1484 of the combined model file). -/
def buildAuditEntry (userId action entity entityId : String)
    (changesBefore changesAfter : JSVal) (description : String) : AuditEntry :=
  { userId := userId
    action := jsToUpper action
    entity := entity
    entityId := entityId
    changesBefore := changesBefore
    changesAfter := changesAfter
    description := description }

/-- `AuditLogService.logCreate` (src/services/auditLogService.js, lines
42-64): action CREATE, changes before = null / after = the given data,
passed to `createLog` unchanged; the description defaults to the generated
Created-with-ID text when the supplied one is falsy (the line 62
`description ||` substitution). The `persist` argument stands for the
document-store save outcome on the built entry. -/
def logCreate (userId entity entityId : String) (data : JSVal)
    (description : String)
    (persist : AuditEntry → JSResult AuditEntry) :
    JSResult (Option AuditEntry) :=
  serviceCreateLog
    (persist (buildAuditEntry userId "CREATE" entity entityId .null data
      (if description ≠ "" then description
       else "Created " ++ entity ++ " with ID " ++ entityId)))

/-- `AuditLogService.logUpdate` (src/services/auditLogService.js, lines
96-119): action UPDATE, changes = the given before/after, passed to
`createLog` unchanged; the description defaults to the generated
Updated-with-ID text when the supplied one is falsy (the line 117
`description ||` substitution). -/
def logUpdate (userId entity entityId : String) (before after : JSVal)
    (description : String)
    (persist : AuditEntry → JSResult AuditEntry) :
    JSResult (Option AuditEntry) :=
  serviceCreateLog
    (persist (buildAuditEntry userId "UPDATE" entity entityId before after
      (if description ≠ "" then description
       else "Updated " ++ entity ++ " with ID " ++ entityId)))

/-- `AuditLogService.logDelete` (src/services/auditLogService.js, lines
126-148): action DELETE, changes before = the given data / after = null;
the description defaults to the generated Deleted-with-ID text when the
supplied one is falsy (the line 146 `description ||` substitution). -/
def logDelete (userId entity entityId : String) (data : JSVal)
    (description : String)
    (persist : AuditEntry → JSResult AuditEntry) :
    JSResult (Option AuditEntry) :=
  serviceCreateLog
    (persist (buildAuditEntry userId "DELETE" entity entityId data .null
      (if description ≠ "" then description
       else "Deleted " ++ entity ++ " with ID " ++ entityId)))

/-- The sensitive field names removed by the interceptor
(src/middleware/auditLogger.js, lines 231-237). -/
def sensitiveFields : List String :=
  ["password", "passwordResetToken", "emailVerificationToken",
   "refreshToken", "accessToken"]

/-- `sanitizeData` (src/middleware/auditLogger.js, lines 223-246):
non-objects are returned unchanged; for an object, each sensitive field is
deleted when its value is truthy (the JS code guards the delete with
`if (sanitized[field])`). -/
def sanitizeData (d : JSVal) : JSVal :=
  match d with
  | .obj fields =>
      .obj (fields.filter
        (fun p => !(decide (p.1 ∈ sensitiveFields) && truthy p.2)))
  | v => v

/-- Whether the first character list is a prefix of the second (structural
model of JS `startsWith`). -/
def jsCharsPrefix : List Char → List Char → Bool
  | [], _ => true
  | _ :: _, [] => false
  | a :: as, b :: bs => a = b && jsCharsPrefix as bs

/-- JS `s.startsWith(p)`. -/
def jsStartsWith (s p : String) : Bool := jsCharsPrefix p.data s.data

/-- JS `s.slice(n)` for a non-negative character count. -/
def jsDrop (s : String) (n : Nat) : String := String.mk (s.data.drop n)

/-- Accumulator worker for `jsSplit`. -/
def jsSplitAux (sep : Char) : List Char → List Char → List String
  | [], acc => [String.mk acc.reverse]
  | c :: rest, acc =>
      if c = sep then String.mk acc.reverse :: jsSplitAux sep rest []
      else jsSplitAux sep rest (c :: acc)

/-- JS `s.split(sep)` for a one-character separator: always yields at least
one element (the empty string splits to one empty segment). -/
def jsSplit (s : String) (sep : Char) : List String := jsSplitAux sep s.data []

/-- JS `parts.join(sep)`. -/
def jsJoin (sep : String) : List String → String
  | [] => ""
  | [x] => x
  | x :: xs => x ++ sep ++ jsJoin sep xs

/-- Property access `v.key` on our object model: the bound value, or null
(standing for JS undefined, equally falsy) when absent or when `v` is not an
object. -/
def jsProp (v : JSVal) (key : String) : JSVal :=
  match v with
  | .obj fs => (jsGet fs key).getD .null
  | _ => .null

/-- JS `String(v)` / template-literal coercion for the values our model can
produce. -/
def jsToString : JSVal → String
  | .str s => s
  | .num n => toString n
  | .bool b => if b then "true" else "false"
  | .null => "null"
  | .obj _ => "[object Object]"

/-- A hexadecimal character, as matched by the `[0-9a-fA-F]` class. -/
def isHexChar (c : Char) : Bool :=
  c.isDigit || (decide ('a' ≤ c) && decide (c ≤ 'f'))
    || (decide ('A' ≤ c) && decide (c ≤ 'F'))

/-- The Mongo ObjectId shape `^[0-9a-fA-F]\x7b24\x7d$` tested by
`extractEntityIdFromPath` (src/middleware/auditLogger.js, line 194). -/
def isObjectIdString (s : String) : Bool :=
  decide (s.length = 24) && s.data.all isHexChar

/-- `path.replace(/^\/api\//, '')` (src/middleware/auditLogger.js, line
152). -/
def stripApiPrefix (s : String) : String :=
  if jsStartsWith s "/api/" then jsDrop s 5 else s

/-- `pathParts[0].charAt(0).toUpperCase() + pathParts[0].slice(1)`
(src/middleware/auditLogger.js, line 183). -/
def capitalizeJS (s : String) : String :=
  match s.data with
  | [] => ""
  | c :: rest => String.mk (c.toUpper :: rest)

/-- The path-to-entity mapping table of `extractEntityFromPath`
(src/middleware/auditLogger.js, lines 157-167), in object-literal order. -/
def entityMap : List (String × String) :=
  [("auth/signup", "User"), ("auth/signin", "User"), ("auth/google", "User"),
   ("auth/profile", "User"), ("auth/me", "User"),
   ("auth/reset-password", "User"), ("auth/forgot-password", "User"),
   ("users", "User"), ("audit", "AuditLog")]

/-- `extractEntityFromPath` (src/middleware/auditLogger.js, lines 150-184):
strip the `/api` prefix, split on `/`, look up the joined path in the
mapping table (exact match first, then first prefix match in table order),
else capitalize the first segment. `split` never yields an empty array, so
the JS null branch is unreachable; the empty first segment capitalizes to
the empty (falsy) string. -/
def extractEntityFromPath (path : String) : String :=
  let pathParts := jsSplit (stripApiPrefix path) (Char.ofNat 47)
  let fullPath := jsJoin "/" pathParts
  match entityMap.find? (fun p => p.1 = fullPath) with
  | some p => p.2
  | none =>
      match entityMap.find? (fun p => jsStartsWith fullPath p.1) with
      | some p => p.2
      | none => capitalizeJS (pathParts.headD "")

/-- The response-payload id probe of `extractEntityIdFromPath`
(src/middleware/auditLogger.js, lines 203-207): `data.id`, `data._id`, then
`data.user.id`, each returned when truthy. -/
def respId (responseData : JSVal) : Option JSVal :=
  if truthy responseData && truthy (jsProp responseData "data") then
    let d := jsProp responseData "data"
    if truthy (jsProp d "id") then some (jsProp d "id")
    else if truthy (jsProp d "_id") then some (jsProp d "_id")
    else if truthy (jsProp d "user") && truthy (jsProp (jsProp d "user") "id") then
      some (jsProp (jsProp d "user") "id")
    else none
  else none

/-- The request-body id probe of `extractEntityIdFromPath`
(src/middleware/auditLogger.js, lines 210-214): `body.id`, `body._id`, then
`body.userId`, each returned when truthy. -/
def bodyId (body : JSVal) : Option JSVal :=
  if truthy body then
    if truthy (jsProp body "id") then some (jsProp body "id")
    else if truthy (jsProp body "_id") then some (jsProp body "_id")
    else if truthy (jsProp body "userId") then some (jsProp body "userId")
    else none
  else none

/-- `extractEntityIdFromPath` (src/middleware/auditLogger.js, lines
189-218): a 24-hex path segment, else a truthy id from the response payload,
else a truthy id from the request body, else the string sentinel
`"unknown"`. -/
def extractEntityIdFromPath (path : String) (body responseData : JSVal) :
    JSVal :=
  match (jsSplit path (Char.ofNat 47)).find? isObjectIdString with
  | some part => .str part
  | none =>
      match respId responseData with
      | some v => v
      | none =>
          match bodyId body with
          | some v => v
          | none => .str "unknown"

/-- `shouldLogGetRequest` (src/middleware/auditLogger.js, lines 121-130). -/
def shouldLogGetRequest (path : String) : Bool :=
  ["/api/auth/profile", "/api/auth/me", "/api/user", "/api/admin"].any
    (fun e => jsStartsWith path e)

/-- `getActionFromMethod` (src/middleware/auditLogger.js, lines 135-145). -/
def getActionFromMethod (m : String) : String :=
  if m = "POST" then "CREATE"
  else if m = "GET" then "READ"
  else if m = "PUT" then "UPDATE"
  else if m = "PATCH" then "UPDATE"
  else if m = "DELETE" then "DELETE"
  else "READ"

/-- The `entityId !== 'unknown'` test in `generateDescription`
(src/middleware/auditLogger.js, line 261): only the exact string
`"unknown"` compares strictly equal to it. -/
def notUnknownSentinel : JSVal → Bool
  | .str s => decide (s ≠ "unknown")
  | _ => true

/-- `generateDescription` (src/middleware/auditLogger.js, lines 251-266). -/
def generateDescription (action entity : String) (entityId : JSVal) :
    String :=
  let base :=
    if action = "CREATE" then "Created " ++ entity
    else if action = "READ" then "Accessed " ++ entity
    else if action = "UPDATE" then "Updated " ++ entity
    else if action = "DELETE" then "Deleted " ++ entity
    else action ++ " " ++ entity
  if truthy entityId && notUnknownSentinel entityId then
    base ++ " with ID " ++ jsToString entityId
  else base

/-- The request data `logRequest` inspects: the authenticated actor
(`req.user`, carrying its id) if any, HTTP method, path, parsed body, and
the optional controller-supplied `req.originalData`. -/
structure CapturedRequest : Type where
  user : Option String
  method : String
  path : String
  body : JSVal
  originalData : Option JSVal

/-- `logRequest` (src/middleware/auditLogger.js, lines 53-116) up to the
`AuditLogService.createLog` call: returns the entry handed to the recording
service, or none when logging is skipped (no authenticated user, unlogged
GET, or falsy entity/entityId). -/
def logRequest (req : CapturedRequest) (responseData : JSVal) :
    Option AuditEntry :=
  match req.user with
  | none => none
  | some uid =>
      if req.method = "GET" && !shouldLogGetRequest req.path then none
      else
        let action := getActionFromMethod req.method
        let entity := extractEntityFromPath req.path
        let entityId := extractEntityIdFromPath req.path req.body responseData
        if entity = "" || !truthy entityId then none
        else
          let changes : JSVal × JSVal :=
            if req.method = "POST" && truthy responseData
                && truthy (jsProp responseData "data") then
              (.null, sanitizeData (jsProp responseData "data"))
            else if req.method = "PUT" || req.method = "PATCH" then
              ((req.originalData).getD .null, sanitizeData req.body)
            else if req.method = "DELETE" then
              ((req.originalData).getD .null, .null)
            else (.null, .null)
          some { userId := uid
                 action := action
                 entity := entity
                 entityId := jsToString entityId
                 changesBefore := changes.1
                 changesAfter := changes.2
                 description := generateDescription action entity entityId }

/-- The options object destructured by `auditLogSchema.statics.getEntityLogs`
(src/models/AuditLog.js): page, limit, and optional action / userId /
startDate / endDate filters. -/
structure EntityLogOptions : Type where
  page : Int
  limit : Int
  action : Option String
  userId : Option String
  startDate : Option Int
  endDate : Option Int

/-- The mongo `find` filter that `getEntityLogs` builds: equality on entity
and entityId, plus the optional action (uppercased), userId, and timestamp
range conditions. -/
def entityLogsMatches (entity entityId : String) (opts : EntityLogOptions)
    (e : StoredEntry) : Bool :=
  decide (e.entity = entity) && decide (e.entityId = entityId)
  && (match opts.action with
      | some a => decide (e.action = jsToUpper a)
      | none => true)
  && (match opts.userId with
      | some u => decide (e.userId = u)
      | none => true)
  && (match opts.startDate with
      | some s => decide (s ≤ e.timestamp)
      | none => true)
  && (match opts.endDate with
      | some d => decide (e.timestamp ≤ d)
      | none => true)

/-- `auditLogSchema.statics.getEntityLogs` (src/models/AuditLog.js, lines
1493-1519): find with the filter above, sort newest first, then paginate
with `skip((page-1)*limit)` and `limit(limit)`. -/
def getEntityLogs (store : List StoredEntry) (entity entityId : String)
    (opts : EntityLogOptions) : List StoredEntry :=
  ((((store.filter (entityLogsMatches entity entityId opts)).mergeSort
      tsDesc).drop (((opts.page - 1) * opts.limit).toNat)).take
    opts.limit.toNat)

/-- The authenticated caller (`req.user`) of the audit endpoints: its id and
role. -/
structure Caller : Type where
  id : String
  role : String

/-- The query parameters of `GET /audit/logs` as they reach
`AuditController.getAuditLogs` after route validation: page and limit as
integers (route defaults applied), plus the optional filters. -/
structure AuditLogsParams : Type where
  page : Int
  limit : Int
  action : Option String
  entity : Option String
  entityId : Option String
  userId : Option String
  startDate : Option Int
  endDate : Option Int

/-- `AuditController.getAuditLogs` (src/controllers/authController.js, lines
574-615): clamp page/limit, build the filter (uppercasing the action and,
for non-admin callers, overwriting any supplied userId with the caller id),
and call `auditLogService.getEntityLogs('', '', options)`. `getEntityLogs`
destructures only page/limit/action/userId/startDate/endDate from the spread
options, so the controller timestamp-range keys (and the entity/entityId
keys) are dropped, and the entity/entityId filter positions carry the empty
strings the controller passes. -/
def getAuditLogs (caller : Caller) (params : AuditLogsParams)
    (store : List StoredEntry) : List StoredEntry :=
  let pageNum := max 1 params.page
  let limitNum := min 100 (max 1 params.limit)
  let effectiveUserId :=
    if caller.role ≠ "admin" then some caller.id else params.userId
  getEntityLogs store "" ""
    { page := pageNum
      limit := limitNum
      action := params.action.map jsToUpper
      userId := effectiveUserId
      startDate := none
      endDate := none }

/-- The User credential fields that `AuthController.signin` reads and
writes (`+password +loginAttempts +lockUntil` selection). -/
structure UserRec : Type where
  isActive : Bool
  loginAttempts : Nat
  lockUntil : Option Int
  lastLogin : Option Int
deriving DecidableEq, Repr

/-- Modelled from the spec: the mongoose User model is not among the
provided sources. Spec 4.1: `isLocked(user)` is derived from
lock-until > now. -/
def isLocked (u : UserRec) (now : Int) : Bool :=
  match u.lockUntil with
  | some t => decide (now < t)
  | none => false

/-- Modelled from the spec: the lockout threshold (5 attempts, spec 4.1). -/
def maxLoginAttempts : Nat := 5

/-- Modelled from the spec: the lockout duration (2 hours, spec 4.1), in
milliseconds. -/
def lockDurationMs : Int := 2 * 60 * 60 * 1000

/-- Modelled from the spec: `incrementFailedAttempts(user)` increments the
counter; when the counter crosses the threshold it sets
lock-until = now + duration and resets the counter (spec 4.1). -/
def incLoginAttempts (u : UserRec) (now : Int) : UserRec :=
  if u.loginAttempts + 1 ≥ maxLoginAttempts then
    { u with loginAttempts := 0, lockUntil := some (now + lockDurationMs) }
  else
    { u with loginAttempts := u.loginAttempts + 1 }

/-- Modelled from the spec: `resetFailedAttempts(user)` clears counter and
lock-until on successful authentication (spec 4.1). -/
def resetLoginAttempts (u : UserRec) : UserRec :=
  { u with loginAttempts := 0, lockUntil := none }

/-- `AuthController.signin` (src/controllers/authController.js, lines
81-151): user not found, locked, deactivated, and wrong-password branches in
source order; `passwordValid` stands for the `comparePassword` outcome. The
second component is the stored user state after the call. -/
def signin (lookup : Option UserRec) (passwordValid : Bool) (now : Int) :
    Outcome × Option UserRec :=
  match lookup with
  | none => (.err 401 "Invalid email or password", none)
  | some u =>
      if isLocked u now then
        (.err 423
          "Account is temporarily locked due to multiple failed login attempts",
         some u)
      else if !u.isActive then
        (.err 401 "Account is deactivated", some u)
      else if !passwordValid then
        (.err 401 "Invalid email or password", some (incLoginAttempts u now))
      else
        let u1 := if u.loginAttempts > 0 then resetLoginAttempts u else u
        (.ok ⟨200, true, "Login successful"⟩,
         some { u1 with lastLogin := some now })

/-- The stored user state after one signin call (unchanged when the user was
not found). -/
def signinState (u : UserRec) (passwordValid : Bool) (now : Int) : UserRec :=
  ((signin (some u) passwordValid now).2).getD u

/-- The user state after `n` consecutive failed signin attempts at time
`now`. -/
def iterateFailed : Nat → UserRec → Int → UserRec
  | 0, u, _ => u
  | n + 1, u, now => iterateFailed n (signinState u false now) now

/-- A raw query-string parameter as the Joi validators see it: absent, a
value Joi converts to an integer, or a non-integer value. -/
inductive RawParam : Type
  | missing
  | intVal (n : Int)
  | nonNumeric
deriving DecidableEq, Repr

/-- The `page` rule of the `auditQuery` Joi schema
(src/middleware/validation.js): integer, min 1, default 1; out-of-range or
non-integer values are rejected (400, handler not reached). -/
def joiPage : RawParam → Option Int
  | .missing => some 1
  | .intVal n => if 1 ≤ n then some n else none
  | .nonNumeric => none

/-- The `limit` rule of the `auditQuery` Joi schema
(src/middleware/validation.js): integer, min 1, max 100, default 20. -/
def joiLimit : RawParam → Option Int
  | .missing => some 20
  | .intVal n => if 1 ≤ n && n ≤ 100 then some n else none
  | .nonNumeric => none

/-- `Math.max(1, parseInt(page))` as computed identically in
`getAuditLogs` (line 588), `getEntityAuditLogs` (line 660) and
`getUserActivity` (line 718) on the validated integer. -/
def clampPage (p : Int) : Int := max 1 p

/-- `Math.min(100, Math.max(1, parseInt(limit)))` as computed identically in
`getAuditLogs` (line 589), `getEntityAuditLogs` (line 661) and
`getUserActivity` (line 719) on the validated integer. -/
def clampLimit (l : Int) : Int := min 100 (max 1 l)

/-- The effective (page, limit) a call to one of the three audit query
endpoints uses: the route-level Joi validation of the raw parameters
followed by the controller clamp; none means the request was rejected with
400 before any query ran. -/
def auditQueryPagination (pRaw lRaw : RawParam) : Option (Int × Int) :=
  match joiPage pRaw, joiLimit lRaw with
  | some p, some l => some (clampPage p, clampLimit l)
  | _, _ => none

/-- The claims `JWTService.generateTokens` signs into an access token:
user id, email, role (src/utils/jwtService.js, lines 47-52). -/
structure Claims : Type where
  id : String
  email : String
  role : String
deriving DecidableEq, Repr

/-- A signed JSON Web Token in symbolic form: the embedded claims, the key
it was signed with, registered issuer/audience claims, and the expiry
instant (seconds). -/
structure SignedToken : Type where
  payload : Claims
  secret : String
  issuer : String
  audience : String
  exp : Int
deriving DecidableEq, Repr

/-- The two failure classes jsonwebtoken distinguishes:
TokenExpiredError and JsonWebTokenError (bad signature / malformed). -/
inductive JwtError : Type
  | expired
  | malformed
deriving DecidableEq, Repr

/-- Modelled from the interface of the jsonwebtoken library the source
calls: `jwt.sign(payload, secret, opts)` embeds the claims with expiry
now + ttl. -/
def jwtSign (payload : Claims) (secret issuer audience : String)
    (now ttl : Int) : SignedToken :=
  ⟨payload, secret, issuer, audience, now + ttl⟩

/-- Modelled from the interface of the jsonwebtoken library:
`jwt.verify(token, secret)` fails with JsonWebTokenError when the signature
does not verify under `secret`, and with TokenExpiredError when the
signature verifies but the expiry instant has passed. -/
def jwtVerify (t : SignedToken) (secret : String) (now : Int) :
    Except JwtError Claims :=
  if t.secret ≠ secret then .error .malformed
  else if t.exp ≤ now then .error .expired
  else .ok t.payload

/-- The environment configuration `JWTService` reads at construction
(src/utils/jwtService.js, lines 5-13). -/
structure JWTConfig : Type where
  secret : String
  expiresIn : Int
  refreshSecret : String
  refreshExpiresIn : Int
  appName : String
deriving DecidableEq, Repr

/-- `JWTService.generateAccessToken` (src/utils/jwtService.js, lines 21-27):
sign with the access secret, the configured expiry, issuer = app name,
audience "user". -/
def generateAccessToken (cfg : JWTConfig) (payload : Claims) (now : Int) :
    SignedToken :=
  jwtSign payload cfg.secret cfg.appName "user" now cfg.expiresIn

/-- What `JWTService.verifyAccessToken` yields to its caller: the decoded
claims, or the translated error message it throws. -/
inductive VerifyOutcome : Type
  | ok (c : Claims)
  | err (msg : String)
deriving DecidableEq, Repr

/-- `JWTService.verifyAccessToken` (src/utils/jwtService.js, lines 69-81):
verify under the access secret and translate TokenExpiredError to
"Access token has expired" and JsonWebTokenError to
"Invalid access token". -/
def verifyAccessToken (cfg : JWTConfig) (t : SignedToken) (now : Int) :
    VerifyOutcome :=
  match jwtVerify t cfg.secret now with
  | .ok c => .ok c
  | .error .expired => .err "Access token has expired"
  | .error .malformed => .err "Invalid access token"

/-- The verified Google identity (`verifyGoogleToken` result) as
`AuthController.googleAuth` consumes it. -/
structure GoogleUser : Type where
  googleId : String
  email : String
  name : String
  avatar : JSVal
  isEmailVerified : Bool

/-- The stored user account fields `googleAuth` reads and writes; googleId
and avatar are kept as JS values because the controller branches on their
truthiness. -/
structure GAccount : Type where
  id : String
  name : String
  email : String
  googleId : JSVal
  avatar : JSVal
  isEmailVerified : Bool
  isActive : Bool
  lastLogin : Option Int

/-- The observable effects of one `googleAuth` call: each `user.save()`
snapshot in order, the actions of the audit entries recorded in order, and
the response. -/
structure GoogleAuthResult : Type where
  savedStates : List GAccount
  auditActions : List String
  response : Outcome
  finalUser : GAccount

/-- The user document the new-user branch constructs from the Google data
(src/controllers/authController.js, lines 179-186); the active flag of a
freshly created account is true (spec data model: deactivation only ever
clears the active flag). -/
def newUserFromGoogle (g : GoogleUser) (newId : String) : GAccount :=
  { id := newId
    name := g.name
    email := g.email
    googleId := .str g.googleId
    avatar := g.avatar
    isEmailVerified := g.isEmailVerified
    isActive := true
    lastLogin := none }

/-- The `shouldUpdate` backfill of the existing-user branch of `googleAuth`
(src/controllers/authController.js, lines 207-222): adopt the Google id when
absent, the avatar when absent and provided, and the email-verified flag
when newly verified; the boolean records whether any field changed (and so
whether the extra `user.save()` ran). -/
def googleBackfill (u0 : GAccount) (g : GoogleUser) : GAccount × Bool :=
  let step1 :=
    if !truthy u0.googleId then
      ({ u0 with googleId := .str g.googleId }, true)
    else (u0, false)
  let step2 :=
    if !truthy step1.1.avatar && truthy g.avatar then
      ({ step1.1 with avatar := g.avatar }, true)
    else step1
  if !step2.1.isEmailVerified && g.isEmailVerified then
    ({ step2.1 with isEmailVerified := true }, true)
  else step2

/-- `AuthController.googleAuth` (src/controllers/authController.js, lines
156-273) after a successful token verification: find-or-create, the
existing-user backfill saves and last-login save, the audit record, and only
then the active check — so the 401 for a deactivated account is produced
after the saves and the audit entry. -/
def googleAuth (lookup : Option GAccount) (g : GoogleUser) (newId : String)
    (now : Int) : GoogleAuthResult :=
  match lookup with
  | none =>
      let u := newUserFromGoogle g newId
      if !u.isActive then
        { savedStates := [u], auditActions := ["CREATE"]
          response := .err 401 "Account is deactivated", finalUser := u }
      else
        { savedStates := [u], auditActions := ["CREATE"]
          response := .ok ⟨200, true, "Account created and login successful"⟩
          finalUser := u }
  | some u0 =>
      let bf := googleBackfill u0 g
      let backfillSaves := if bf.2 then [bf.1] else []
      let u2 : GAccount := { bf.1 with lastLogin := some now }
      let saves := backfillSaves ++ [u2]
      if !u2.isActive then
        { savedStates := saves, auditActions := ["READ"]
          response := .err 401 "Account is deactivated", finalUser := u2 }
      else
        { savedStates := saves, auditActions := ["READ"]
          response := .ok ⟨200, true, "Login successful"⟩, finalUser := u2 }

/-- The field list of an object value (empty for non-objects). -/
def objFields : JSVal → List (String × JSVal)
  | .obj fs => fs
  | _ => []

/-- The before/after snapshot of the entry a Recording Service call
persisted, when it persisted one. -/
def storedChanges : JSResult (Option AuditEntry) → Option (JSVal × JSVal)
  | .ok (some e) => some (e.changesBefore, e.changesAfter)
  | _ => none

/-- C1: the forgot-password success body for a non-existent email and the
success body for an existing active account whose reset email was sent are
byte-identical. The code refutes this: the two 200 bodies carry different
messages, so the response does reveal account existence. -/
theorem forgotPassword_success_bodies_differ :
    forgotPassword .noUser true true ≠ forgotPassword .activeUser true true := by
  decide

/-- C6: appending an audit entry never propagates a failure: both the
AuditLog model static and the service wrapper absorb a throwing save and
return the persisted entry or null, never an exception. -/
theorem createLog_never_raises (save : JSResult AuditEntry) :
    auditLogModelCreateLog save
      = .ok (match save with | .ok e => some e | .exn _ => none)
    ∧ serviceCreateLog save
      = .ok (match save with | .ok e => some e | .exn _ => none) := by
  cases save <;> exact ⟨rfl, rfl⟩

/-- C8: however many stored records match the export filters, the audit
export selects at most 10,000 records. -/
theorem exportAuditLogs_capped (store : List StoredEntry) (q : ExportQuery) :
    (exportAuditLogs store q).length ≤ 10000 := by
  simp [exportAuditLogs]

/-- C10: on every audit query endpoint call that reaches the store, the
effective page is at least 1 and the effective items-per-page lies in
1..100, whatever raw page/limit values the caller supplied. -/
theorem auditQueryPagination_clamped
    (pRaw lRaw : RawParam) (p l : Int)
    (h : auditQueryPagination pRaw lRaw = some (p, l)) :
    1 ≤ p ∧ 1 ≤ l ∧ l ≤ 100 := by
  unfold auditQueryPagination at h
  cases hp : joiPage pRaw with
  | none => rw [hp] at h; cases h
  | some p0 =>
      cases hl : joiLimit lRaw with
      | none => rw [hp, hl] at h; cases h
      | some l0 =>
          rw [hp, hl] at h
          injection h with h
          injection h with h1 h2
          subst h1; subst h2
          refine ⟨le_max_left 1 p0, ?_, min_le_left 100 (max 1 l0)⟩
          exact le_min (by norm_num) (le_max_left 1 l0)

/-- C10 witness: a concrete call with page 7 and defaulted limit is clamped
into range. -/
theorem auditQueryPagination_clamped_witness :
    auditQueryPagination (.intVal 7) .missing = some (7, 20)
    ∧ (1 ≤ (7 : Int) ∧ 1 ≤ (20 : Int) ∧ (20 : Int) ≤ 100) :=
  ⟨by decide, auditQueryPagination_clamped (.intVal 7) .missing 7 20 (by decide)⟩

/-- C2 counterexample: an entry persisted through
`AuditLogService.logUpdate` keeps a password field in its before snapshot —
the service does not sanitize the snapshots it is given. -/
theorem logUpdate_persists_password_snapshot :
    logUpdate "u1" "User" "e1" (.obj [("password", .str "hunter2")]) .null
      "changed" JSResult.ok
    = .ok (some
        { userId := "u1", action := "UPDATE", entity := "User",
          entityId := "e1",
          changesBefore := .obj [("password", .str "hunter2")],
          changesAfter := .null, description := "changed" }) := by
  have h : jsToUpper "UPDATE" = "UPDATE" := by decide
  have hd : (("changed" : String) ≠ "") := by decide
  simp [logUpdate, serviceCreateLog, auditLogModelCreateLog, buildAuditEntry,
    h, hd]

/-- C2 (amended): each of the Recording Service operations logCreate,
logUpdate and logDelete persists its before/after snapshot exactly as
supplied; removal of sensitive fields happens only in the interceptor,
whose `sanitizeData` drops every sensitive field bound to a truthy value
from the snapshots it builds before calling `createLog`. -/
theorem audit_sanitization_in_interceptor
    (userId entity entityId descr : String) (before after data : JSVal)
    (fs : List (String × JSVal)) (f : String) (v : JSVal)
    (hf : f ∈ sensitiveFields) (hv : truthy v = true) :
    storedChanges (logCreate userId entity entityId data descr JSResult.ok)
      = some (.null, data)
    ∧ storedChanges (logUpdate userId entity entityId before after descr
        JSResult.ok) = some (before, after)
    ∧ storedChanges (logDelete userId entity entityId data descr JSResult.ok)
      = some (data, .null)
    ∧ (f, v) ∉ objFields (sanitizeData (.obj fs)) := by
  refine ⟨rfl, rfl, rfl, ?_⟩
  intro hmem
  simp only [sanitizeData, objFields, List.mem_filter] at hmem
  rcases hmem with ⟨-, hpred⟩
  simp [hf, hv] at hpred

/-- C2 amended witness: with an empty supplied description (exercising the
generated-default path), the three operations store their concrete
snapshots verbatim, while a concrete truthy password field is dropped by
`sanitizeData`. -/
theorem audit_sanitization_in_interceptor_witness :
    ("password" ∈ sensitiveFields ∧ truthy (.str "x") = true)
    ∧ (storedChanges (logCreate "u2" "User" "e2" (.obj [("name", .str "n")])
          "" JSResult.ok) = some (.null, .obj [("name", .str "n")])
      ∧ storedChanges (logUpdate "u2" "User" "e2" (.obj []) .null ""
          JSResult.ok) = some (.obj [], .null)
      ∧ storedChanges (logDelete "u2" "User" "e2" (.obj [("name", .str "n")])
          "" JSResult.ok) = some (.obj [("name", .str "n")], .null)
      ∧ ("password", JSVal.str "x")
          ∉ objFields (sanitizeData (.obj [("password", .str "x")]))) :=
  ⟨⟨by decide, by decide⟩,
   audit_sanitization_in_interceptor "u2" "User" "e2" "" (.obj []) .null
     (.obj [("name", .str "n")]) [("password", .str "x")] "password"
     (.str "x") (by decide) (by decide)⟩

/-- C3 counterexample: an authenticated POST to
`/api/auth/forgot-password` whose path, response payload and body expose no
entity id is still logged, with the sentinel entity id `"unknown"` — the
interceptor does not skip it. -/
theorem logRequest_records_unknown_sentinel :
    logRequest ⟨some "64a0", "POST", "/api/auth/forgot-password",
      .obj [("email", .str "a@b.c")], none⟩ (.obj [("success", .bool true)])
    = some { userId := "64a0", action := "CREATE", entity := "User",
             entityId := "unknown", changesBefore := .null,
             changesAfter := .null, description := "Created User" } := rfl

/-- C3 (amended): when no entity id can be determined from the path, the
response payload or the request body, the interceptor still records an
entry, using the sentinel id `"unknown"`; logging is skipped only for
unauthenticated requests, unlogged GETs, or an empty entity name. -/
theorem logRequest_unknown_id_still_logged
    (req : CapturedRequest) (responseData : JSVal) (uid : String)
    (hu : req.user = some uid)
    (hm : req.method = "GET" → shouldLogGetRequest req.path = true)
    (hid : extractEntityIdFromPath req.path req.body responseData
            = .str "unknown")
    (hent : extractEntityFromPath req.path ≠ "") :
    ∃ e, logRequest req responseData = some e ∧ e.entityId = "unknown"
      ∧ e.userId = uid := by
  have h1 : (decide (req.method = "GET") && !shouldLogGetRequest req.path)
      = false := by
    by_cases hg : req.method = "GET"
    · simp [hg, hm hg]
    · simp [hg]
  simp only [logRequest, hu, h1, hid]
  simp [hent, truthy, jsToString]

/-- C3 amended witness: the concrete forgot-password request is recorded
with the sentinel id. -/
theorem logRequest_unknown_id_still_logged_witness :
    ∃ e, logRequest ⟨some "64a1", "POST", "/api/auth/forgot-password",
        .obj [("email", .str "b@c.d")], none⟩ (.obj [("success", .bool true)])
      = some e ∧ e.entityId = "unknown" ∧ e.userId = "64a1" :=
  logRequest_unknown_id_still_logged
    ⟨some "64a1", "POST", "/api/auth/forgot-password",
      .obj [("email", .str "b@c.d")], none⟩ (.obj [("success", .bool true)])
    "64a1" rfl (by decide) rfl (by decide)

/-- C4: for a non-admin caller of GET /audit/logs, every entry of the
returned page has the caller as actor, whatever filters were supplied —
the controller overwrites any supplied userId filter with the caller id
before querying. -/
theorem getAuditLogs_nonadmin_only_own
    (caller : Caller) (params : AuditLogsParams) (store : List StoredEntry)
    (h : caller.role ≠ "admin") :
    (getAuditLogs caller params store).all
      (fun e => e.userId == caller.id) = true := by
  apply List.all_eq_true.mpr
  intro e he
  simp only [getAuditLogs, getEntityLogs, if_pos h] at he
  have h1 := List.mem_of_mem_take he
  have h2 := List.mem_of_mem_drop h1
  have h3 := (List.mergeSort_perm _ tsDesc).mem_iff.mp h2
  have h4 := (List.mem_filter.mp h3).2
  simp only [entityLogsMatches, Bool.and_eq_true, decide_eq_true_eq] at h4
  simpa using h4.1.1.2

/-- C4 witness: a non-admin caller filtering on another userId still only
ever sees its own entries. -/
theorem getAuditLogs_nonadmin_only_own_witness :
    (("user" : String) ≠ "admin")
    ∧ (getAuditLogs ⟨"me", "user"⟩
        ⟨1, 20, none, none, none, some "other", none, none⟩
        [⟨"other", "CREATE", "", "", 5⟩, ⟨"me", "READ", "", "", 9⟩]).all
        (fun e => e.userId == "me") = true :=
  ⟨by decide,
   getAuditLogs_nonadmin_only_own ⟨"me", "user"⟩
     ⟨1, 20, none, none, none, some "other", none, none⟩
     [⟨"other", "CREATE", "", "", 5⟩, ⟨"me", "READ", "", "", 9⟩]
     (by decide)⟩

/-- After five consecutive failed attempts at time `t`, a fresh active
account is locked until `t` + the lockout duration. -/
theorem iterateFailed_five_locks (ll : Option Int) (t : Int) :
    iterateFailed 5 ⟨true, 0, none, ll⟩ t
      = ⟨true, 0, some (t + lockDurationMs), ll⟩ := rfl

/-- C5: signin against an account whose lock-until is in the future yields
423 regardless of the password; in particular 5 consecutive failures lock a
fresh active account until t + lockout duration, a later attempt with the
correct password inside that window still yields 423, and the lock is gone
once the window elapses. -/
theorem signin_locked_regardless_of_password
    (u : UserRec) (pw : Bool) (now : Int)
    (fresh : UserRec) (t t2 : Int)
    (hl : isLocked u now = true)
    (h0 : fresh.loginAttempts = 0) (h1 : fresh.lockUntil = none)
    (h2 : fresh.isActive = true) :
    (signin (some u) pw now).1
      = .err 423
        "Account is temporarily locked due to multiple failed login attempts"
    ∧ (iterateFailed 5 fresh t).lockUntil = some (t + lockDurationMs)
    ∧ (t2 < t + lockDurationMs →
        (signin (some (iterateFailed 5 fresh t)) true t2).1
          = .err 423
            "Account is temporarily locked due to multiple failed login attempts")
    ∧ (t + lockDurationMs ≤ t2 →
        isLocked (iterateFailed 5 fresh t) t2 = false) := by
  obtain ⟨act, la, lu, ll⟩ := fresh
  simp only at h0 h1 h2
  subst h0; subst h1; subst h2
  refine ⟨by simp [signin, hl], ?_, ?_, ?_⟩
  · rw [iterateFailed_five_locks]
  · intro hlt
    rw [iterateFailed_five_locks]
    have hlk : isLocked ⟨true, 0, some (t + lockDurationMs), ll⟩ t2
        = true := by
      simp [isLocked]; omega
    simp [signin, hlk]
  · intro hge
    rw [iterateFailed_five_locks]
    simp [isLocked]
    omega

/-- C5 witness: a concrete locked account (lock-until 10, now 5) rejects a
correct password with 423, and the concrete five-failure trace from time 0
locks until the lockout duration. -/
theorem signin_locked_regardless_of_password_witness :
    (isLocked ⟨true, 0, some 10, none⟩ 5 = true
      ∧ (⟨true, 0, none, (none : Option Int)⟩ : UserRec).loginAttempts = 0
      ∧ (⟨true, 0, none, (none : Option Int)⟩ : UserRec).lockUntil = none
      ∧ (⟨true, 0, none, (none : Option Int)⟩ : UserRec).isActive = true)
    ∧ ((signin (some ⟨true, 0, some 10, none⟩) true 5).1
        = .err 423
          "Account is temporarily locked due to multiple failed login attempts"
      ∧ (iterateFailed 5 ⟨true, 0, none, none⟩ 0).lockUntil
          = some (0 + lockDurationMs)
      ∧ ((3 : Int) < 0 + lockDurationMs →
          (signin (some (iterateFailed 5 ⟨true, 0, none, none⟩ 0)) true 3).1
            = .err 423
              "Account is temporarily locked due to multiple failed login attempts")
      ∧ ((0 : Int) + lockDurationMs ≤ 3 →
          isLocked (iterateFailed 5 ⟨true, 0, none, none⟩ 0) 3 = false)) :=
  ⟨⟨by decide, rfl, rfl, rfl⟩,
   signin_locked_regardless_of_password ⟨true, 0, some 10, none⟩ true 5
     ⟨true, 0, none, none⟩ 0 3 (by decide) rfl rfl rfl⟩

/-- C7: issuing an access token and immediately verifying it returns the
original claims unchanged; verifying the same token at or after the expiry
instant fails with the Expired message, which is distinct from the
invalid-signature message. -/
theorem jwt_roundtrip_and_expired_distinct
    (cfg : JWTConfig) (payload : Claims) (now later : Int)
    (hpos : 0 < cfg.expiresIn) (hexp : now + cfg.expiresIn ≤ later) :
    verifyAccessToken cfg (generateAccessToken cfg payload now) now
      = .ok payload
    ∧ verifyAccessToken cfg (generateAccessToken cfg payload now) later
        = .err "Access token has expired"
    ∧ verifyAccessToken cfg (generateAccessToken cfg payload now) later
        ≠ .err "Invalid access token" := by
  have hno : ¬ (now + cfg.expiresIn ≤ now) := by omega
  refine ⟨?_, ?_, ?_⟩ <;>
    simp [verifyAccessToken, generateAccessToken, jwtSign, jwtVerify, hno,
      hexp]

/-- C7 witness: a concrete token with a 700-second lifetime round-trips at
issue time and is Expired, not Invalid, at a later instant. -/
theorem jwt_roundtrip_and_expired_distinct_witness :
    ((0 : Int) < 700 ∧ (100 : Int) + 700 ≤ 900)
    ∧ (verifyAccessToken ⟨"k1", 700, "k2", 3000, "app"⟩
        (generateAccessToken ⟨"k1", 700, "k2", 3000, "app"⟩
          ⟨"id1", "a@b.c", "user"⟩ 100) 100
        = .ok ⟨"id1", "a@b.c", "user"⟩
      ∧ verifyAccessToken ⟨"k1", 700, "k2", 3000, "app"⟩
          (generateAccessToken ⟨"k1", 700, "k2", 3000, "app"⟩
            ⟨"id1", "a@b.c", "user"⟩ 100) 900
          = .err "Access token has expired"
      ∧ verifyAccessToken ⟨"k1", 700, "k2", 3000, "app"⟩
          (generateAccessToken ⟨"k1", 700, "k2", 3000, "app"⟩
            ⟨"id1", "a@b.c", "user"⟩ 100) 900
          ≠ .err "Invalid access token") :=
  ⟨⟨by decide, by decide⟩,
   jwt_roundtrip_and_expired_distinct ⟨"k1", 700, "k2", 3000, "app"⟩
     ⟨"id1", "a@b.c", "user"⟩ 100 900 (by decide) (by decide)⟩

/-- The backfill never changes the active flag. -/
theorem googleBackfill_isActive (u0 : GAccount) (g : GoogleUser) :
    (googleBackfill u0 g).1.isActive = u0.isActive := by
  simp only [googleBackfill]
  split_ifs <;> simp_all

/-- When the stored account has no (truthy) Google id, the backfill adopts
the verified Google id. -/
theorem googleBackfill_googleId_backfilled (u0 : GAccount) (g : GoogleUser)
    (h : truthy u0.googleId = false) :
    (googleBackfill u0 g).1.googleId = .str g.googleId := by
  simp only [googleBackfill]
  split_ifs <;> simp_all

/-- C9: a valid Google token for an existing deactivated account yields 401,
but only after the account has been mutated and saved (last-login set, the
Google id backfilled when absent) and a signin (READ) audit entry recorded:
the final saved state is the mutated one. -/
theorem googleAuth_inactive_saves_before_401
    (u0 : GAccount) (g : GoogleUser) (newId : String) (now : Int)
    (h : u0.isActive = false) :
    (googleAuth (some u0) g newId now).response
      = .err 401 "Account is deactivated"
    ∧ (googleAuth (some u0) g newId now).finalUser.lastLogin = some now
    ∧ (googleAuth (some u0) g newId now).savedStates.getLast?
        = some (googleAuth (some u0) g newId now).finalUser
    ∧ (googleAuth (some u0) g newId now).auditActions = ["READ"]
    ∧ (truthy u0.googleId = false →
        (googleAuth (some u0) g newId now).finalUser.googleId
          = .str g.googleId) := by
  have hact2 : (googleBackfill u0 g).1.isActive = false := by
    rw [googleBackfill_isActive]; exact h
  refine ⟨?_, ?_, ?_, ?_, ?_⟩
  · simp [googleAuth, hact2]
  · simp [googleAuth, hact2]
  · by_cases hb : (googleBackfill u0 g).2 = true <;>
      simp [googleAuth, hact2, hb]
  · simp [googleAuth, hact2]
  · intro hg
    simp [googleAuth, hact2, googleBackfill_googleId_backfilled u0 g hg]

/-- C9 witness: a concrete deactivated password-only account presented with
a valid Google identity is saved with the backfilled Google id and new
last-login, gets a READ audit entry, and then receives 401. -/
theorem googleAuth_inactive_saves_before_401_witness :
    ((⟨"u9", "N", "n@e.x", .null, .null, false, false, none⟩
        : GAccount).isActive = false)
    ∧ ((googleAuth
          (some ⟨"u9", "N", "n@e.x", .null, .null, false, false, none⟩)
          ⟨"gid1", "n@e.x", "N", .str "http://a/p.png", true⟩ "x" 42).response
        = .err 401 "Account is deactivated"
      ∧ (googleAuth
          (some ⟨"u9", "N", "n@e.x", .null, .null, false, false, none⟩)
          ⟨"gid1", "n@e.x", "N", .str "http://a/p.png", true⟩ "x"
          42).finalUser.lastLogin = some 42
      ∧ (googleAuth
          (some ⟨"u9", "N", "n@e.x", .null, .null, false, false, none⟩)
          ⟨"gid1", "n@e.x", "N", .str "http://a/p.png", true⟩ "x"
          42).savedStates.getLast?
          = some (googleAuth
              (some ⟨"u9", "N", "n@e.x", .null, .null, false, false, none⟩)
              ⟨"gid1", "n@e.x", "N", .str "http://a/p.png", true⟩ "x"
              42).finalUser
      ∧ (googleAuth
          (some ⟨"u9", "N", "n@e.x", .null, .null, false, false, none⟩)
          ⟨"gid1", "n@e.x", "N", .str "http://a/p.png", true⟩ "x"
          42).auditActions = ["READ"]
      ∧ (truthy (⟨"u9", "N", "n@e.x", .null, .null, false, false, none⟩
            : GAccount).googleId = false →
          (googleAuth
            (some ⟨"u9", "N", "n@e.x", .null, .null, false, false, none⟩)
            ⟨"gid1", "n@e.x", "N", .str "http://a/p.png", true⟩ "x"
            42).finalUser.googleId = .str "gid1")) :=
  ⟨rfl,
   googleAuth_inactive_saves_before_401
     ⟨"u9", "N", "n@e.x", .null, .null, false, false, none⟩
     ⟨"gid1", "n@e.x", "N", .str "http://a/p.png", true⟩ "x" 42 rfl⟩
